import Mathlib

/-!
Verification development for the dispatch IRC gateway's per-connection
event-dispatch engine (`server/irc_handler.go`).

The Go handler is embedded shallowly: each handler method becomes a pure
Lean function from the session state and the inbound message to the new
session state together with the ordered list of observable actions
(emitted JSON events, storage calls, outbound IRC commands, timer waits).
Asynchronous (`go`-spawned) storage calls are recorded as actions in the
position where the source fires them; the spawned channel-list publish of
`listEnd` is modelled as an immediate update of the process-wide index
cache, which is carried inside the session state here.  Indexing into a
message's parameter list or command string, which panics in Go when out
of bounds, is embedded fallibly: a handler returns `none` exactly when
the source would index out of bounds.

The `pkg/irc` package is not part of the sources; its message accessors
(`LastParam`, command constants, `IsFromServer`, `ToCTCP`,
`ParseDCCSend`, `GetMode`, `GetNickChannels`, `GetQuitChannels`,
`GetNamreplyUsers`) are modelled from the spec: command constants use the
standard IRC numeric codes the spec names, and the remaining helpers are
either message fields (`fromServer`, `ctcp`) or opaque environment
functions, since no claim depends on their internals.
-/

namespace Dispatch

namespace irc

/-- Modelled from the spec: CTCP sub-message decoded from a PRIVMSG/NOTICE
payload (`pkg/irc` is not under src/). -/
structure Ctcp where
  command : String := ""
  params : String := ""
deriving DecidableEq, Repr

/-- Modelled from the spec: a parsed inbound IRC protocol message
(command identifier, ordered parameter list, sender).  `fromServer`
embeds the `IsFromServer()` accessor and `ctcp` the `ToCTCP()` accessor,
both provided by the out-of-scope `pkg/irc` collaborator. -/
structure Message where
  command : String := ""
  params : List String := []
  sender : String := ""
  fromServer : Bool := false
  ctcp : Option Ctcp := none
deriving DecidableEq, Repr

/-- Modelled from the spec: the "last parameter" helper accessor of
`pkg/irc.Message` — the final parameter, or the empty string when the
message has none. -/
def Message.lastParam (m : Message) : String :=
  m.params.getLast?.getD ""

/-- Modelled from the spec: a parsed DCC SEND offer (file name, byte size
if known; `pkg/irc` is not under src/). -/
structure DCCSend where
  file : String := ""
  length : Nat := 0
deriving DecidableEq, Repr

/-- Modelled from the spec: a transfer-progress notification (file name,
percent complete, transfer rate, bytes remaining, estimated seconds
remaining, terminal error if any).  Percent and ETA are rationals
standing in for the source's float64 fields. -/
structure DownloadProgress where
  file : String := ""
  percCompletion : ℚ := 0
  speed : String := ""
  bytesRemaining : String := ""
  secondsToGo : ℚ := 0
  error : Option String := none
deriving DecidableEq, Repr

/-- Modelled from the spec: connection-state-change notification
(connected flag, terminal error if any); errors are carried as their
message text. -/
structure ConnectionState where
  connected : Bool := false
  error : Option String := none
deriving DecidableEq, Repr

/- Modelled from the spec: the `pkg/irc` command-identifier constants,
using the standard IRC names and numeric reply codes the spec refers to. -/

def NICK : String := "NICK"
def JOIN : String := "JOIN"
def PART : String := "PART"
def MODE : String := "MODE"
def PRIVMSG : String := "PRIVMSG"
def NOTICE : String := "NOTICE"
def QUIT : String := "QUIT"
def TOPIC : String := "TOPIC"
def ERROR : String := "ERROR"
def RPL_WELCOME : String := "001"
def RPL_YOURHOST : String := "002"
def RPL_CREATED : String := "003"
def RPL_ISUPPORT : String := "005"
def RPL_LUSERCLIENT : String := "251"
def RPL_LUSEROP : String := "252"
def RPL_LUSERUNKNOWN : String := "253"
def RPL_LUSERCHANNELS : String := "254"
def RPL_LUSERME : String := "255"
def RPL_WHOISUSER : String := "311"
def RPL_WHOISSERVER : String := "312"
def RPL_ENDOFWHOIS : String := "318"
def RPL_WHOISCHANNELS : String := "319"
def RPL_LIST : String := "322"
def RPL_LISTEND : String := "323"
def RPL_NOTOPIC : String := "331"
def RPL_TOPIC : String := "332"
def RPL_ENDOFNAMES : String := "366"
def RPL_MOTDSTART : String := "375"
def RPL_MOTD : String := "372"
def RPL_ENDOFMOTD : String := "376"
def ERR_ERRONEUSNICKNAME : String := "432"
def ERR_NICKNAMEINUSE : String := "433"
def ERR_NICKCOLLISION : String := "436"
def ERR_UNAVAILRESOURCE : String := "437"
def ERR_FORWARD : String := "470"

end irc

namespace storage

/-- `storage.Message` as used by the handler: the persisted message
record (fields ID, Server, From, To, Content). -/
structure Message where
  id : String := ""
  server : String := ""
  from_ : String := ""
  to_ : String := ""
  content : String := ""
deriving DecidableEq, Repr

/-- `storage.ChannelListItem`: one channel-list entry (Name, UserCount,
Topic). -/
structure ChannelListItem where
  name : String := ""
  userCount : Int := 0
  topic : String := ""
deriving DecidableEq, Repr

end storage

/-- `server.Message`: the UI-facing message event payload. -/
structure Message where
  id : String := ""
  server : String := ""
  from_ : String := ""
  to_ : String := ""
  content : String := ""
deriving DecidableEq, Repr

/-- `server.IRCError`: the protocol-error event payload. -/
structure IRCError where
  server : String := ""
  message : String := ""
  target : String := ""
deriving DecidableEq, Repr

/-- `server.Nick` event payload. -/
structure Nick where
  server : String := ""
  old : String := ""
  new : String := ""
deriving DecidableEq, Repr

/-- `server.Join` event payload. -/
structure Join where
  server : String := ""
  user : String := ""
  channels : List String := []
deriving DecidableEq, Repr

/-- `server.Part` event payload. -/
structure Part where
  server : String := ""
  user : String := ""
  channel : String := ""
  reason : String := ""
deriving DecidableEq, Repr

/-- `server.Quit` event payload. -/
structure Quit where
  server : String := ""
  user : String := ""
  reason : String := ""
deriving DecidableEq, Repr

/-- `server.Mode` event payload; the parsed mode change itself is opaque
here (produced by the out-of-scope `irc.GetMode`). -/
structure Mode where
  raw : String := ""
deriving DecidableEq, Repr

/-- `server.Topic` event payload. -/
structure Topic where
  server : String := ""
  channel : String := ""
  topic : String := ""
  nick : String := ""
deriving DecidableEq, Repr

/-- `server.Userlist` event payload. -/
structure Userlist where
  server : String := ""
  channel : String := ""
  users : List String := []
deriving DecidableEq, Repr

/-- `server.MOTD`: the MOTD accumulator and event payload. -/
structure MOTD where
  server : String := ""
  title : String := ""
  content : List String := []
deriving DecidableEq, Repr

/-- `server.Features` event payload. -/
structure Features where
  server : String := ""
  features : List (String × String) := []
deriving DecidableEq, Repr

/-- `server.WhoisReply`: the WHOIS accumulator and event payload. -/
structure WhoisReply where
  nick : String := ""
  username : String := ""
  host : String := ""
  realname : String := ""
  server : String := ""
  channels : List String := []
deriving DecidableEq, Repr

/-- `server.NickFail` event payload. -/
structure NickFail where
  server : String := ""
deriving DecidableEq, Repr

/-- `server.ChannelForward` event payload. -/
structure ChannelForward where
  server : String := ""
  old : String := ""
  new : String := ""
deriving DecidableEq, Repr

/-- `server.DCCSend`: the dcc-offer event payload. -/
structure DCCSend where
  server : String := ""
  from_ : String := ""
  filename : String := ""
  url : String := ""
deriving DecidableEq, Repr

/-- The tagged union of event payloads handed to `state.sendJSON`. -/
inductive Payload where
  | ircError (e : IRCError)
  | nick (n : Nick)
  | join (j : Join)
  | part (p : Part)
  | mode (m : Mode)
  | message (m : Message)
  | quit (q : Quit)
  | topic (t : Topic)
  | userlist (u : Userlist)
  | motd (m : MOTD)
  | features (f : Features)
  | whois (w : WhoisReply)
  | nickFail (n : NickFail)
  | channelForward (c : ChannelForward)
  | dccSend (d : DCCSend)
  | connectionUpdate (host : String) (connected : Bool) (error : Option String)
deriving DecidableEq, Repr

/-- One observable action of the handler, in the order the source
performs it: an event sent to the client, a storage call (the source
fires most of these as fire-and-forget goroutines), an outbound IRC
command, pending-DCC table mutation, a timer wait, or a run-loop log
line (log calls are recorded structurally). -/
inductive Act where
  | sendJSON (name : String) (p : Payload)
  | logEvent (host kind : String) (actors channels : List String)
  | logMessage (m : storage.Message)
  | addOpenDM (host nick : String)
  | addChannel (host name : String)
  | removeChannel (host name : String)
  | setNick (nick host : String)
  | topicQuery (channel : String)
  | sendLastMessages (host channel : String) (count : Nat)
  | listRequest
  | setServerNameIfEmpty (name : String)
  | setPendingDCC (file : String) (pack : irc.DCCSend)
  | deletePendingDCC (file : String)
  | sleep (seconds : Nat)
  | downloadDCC (pack : irc.DCCSend)
  | spawnDCCReceive (pack : irc.DCCSend) (m : irc.Message)
  | setConnectionState (connected : Bool) (error : Option String)
  | logConnError (text : String)
  | logConnected
deriving DecidableEq, Repr

/-- The mutable per-session state of `ircHandler` (the three transient
accumulators), the session key/value flags (`state.Bool`/`state.Set`,
used for the per-host `update_chanlist_` refresh flag), and the
process-wide channel-list index cache `channelIndexes` (modelled inside
the session state; the spawned publish in `listEnd` is applied
immediately). -/
structure HState where
  whois : WhoisReply := {}
  motdBuffer : MOTD := {}
  listBuffer : Option (List storage.ChannelListItem) := none
  flags : String → Bool := fun _ => false
  channelIndexes : String → Option (List storage.ChannelListItem) := fun _ => none

/-- The server configuration bits the handler consults
(`cfg.DCC.Enabled`, `cfg.DCC.Autoget.Enabled`). -/
structure Config where
  dccEnabled : Bool := false
  autogetEnabled : Bool := false
deriving DecidableEq, Repr

/-- The session's read-only environment: the connection identity and the
out-of-scope collaborator functions the handler calls.  `isSelf` embeds
`client.Is`, `newID` the generated message ID, `parseDCCSend`/`getMode`/
`getNickChannels`/`getQuitChannels`/`getNamreplyUsers` the `pkg/irc`
helpers, `listCacheStale` the staleness flag returned by
`channelIndexes.Get` on welcome, `finishIndex` the `Finish()` step of a
channel-list index, and `openFileOk` whether the auto-download
destination file opens successfully. -/
structure Env where
  host : String := ""
  isSelf : String → Bool := fun _ => false
  username : String := ""
  scheme : String := ""
  webHost : String := ""
  newID : String := ""
  parseDCCSend : irc.Ctcp → Option irc.DCCSend := fun _ => none
  getMode : irc.Message → Option Mode := fun _ => none
  getNickChannels : irc.Message → List String := fun _ => []
  getQuitChannels : irc.Message → List String := fun _ => []
  getNamreplyUsers : irc.Message → List String := fun _ => []
  featuresMap : List (String × String) := []
  networkName : String := ""
  listCacheStale : String → Bool := fun _ => false
  finishIndex : List storage.ChannelListItem → List storage.ChannelListItem := fun l => l
  openFileOk : Bool := true

/-- `isChannel`: `strings.IndexAny(s, "&#+!") == 0` — true exactly when
the string's first character is one of `&#+!`. -/
def isChannel (s : String) : Bool :=
  match s.data with
  | [] => false
  | c :: _ => c == '&' || c == '#' || c == '+' || c == '!'

/-- `excludedErrors`: the error codes never converted into a generic
protocol-error event. -/
def excludedErrors : List String :=
  [irc.ERR_NICKNAMEINUSE, irc.ERR_NICKCOLLISION, irc.ERR_UNAVAILRESOURCE,
   irc.ERR_FORWARD]

/-- `isExcludedError`: membership in `excludedErrors`. -/
def isExcludedError (cmd : String) : Bool :=
  excludedErrors.contains cmd

/-- Accumulate a decimal digit string; `none` when a non-digit appears
or the string is empty. -/
def digitsVal (cs : List Char) : Option Nat :=
  if cs = [] then none
  else
    cs.foldl
      (fun acc c =>
        match acc with
        | none => none
        | some n => if c.isDigit then some (n * 10 + (c.toNat - 48)) else none)
      (some 0)

/-- `strconv.Atoi` with the error ignored as in `list`: an optional
sign followed by decimal digits parses to its value, and anything else
yields the zero value the source keeps on error. -/
def atoi (s : String) : Int :=
  match s.data with
  | '-' :: cs => match digitsVal cs with | some n => -(n : Int) | none => 0
  | '+' :: cs => match digitsVal cs with | some n => (n : Int) | none => 0
  | cs => match digitsVal cs with | some n => (n : Int) | none => 0

/-- Go slice expression `l[i:]`, which panics when `i > len(l)`. -/
def sliceFrom (l : List String) (i : Nat) : Option (List String) :=
  if i ≤ l.length then some (l.drop i) else none

/-- `strings.TrimRight(s, " ")`: remove all trailing space characters. -/
def trimRightSpaces (s : String) : String :=
  String.mk ((s.data.reverse.dropWhile (· == ' ')).reverse)

/-- The target-selection scan of `dispatchMessage`: when the message has
more than two parameters, the first channel-shaped parameter at index 1
or later; otherwise the zero value (empty string). -/
def errTarget (params : List String) : String :=
  if 2 < params.length then
    match (params.drop 1).find? (fun p => isChannel p) with
    | some c => c
    | none => ""
  else ""

/-- `nick` handler. -/
def nick (env : Env) (s : HState) (m : irc.Message) : HState × List Act :=
  (s,
    [Act.sendJSON "nick" (.nick { server := env.host, old := m.sender, new := m.lastParam })]
    ++ (if env.isSelf m.lastParam then [Act.setNick m.lastParam env.host] else [])
    ++ [Act.logEvent env.host "nick" [m.sender, m.lastParam] (env.getNickChannels m)])

/-- `join` handler; reads `msg.Params[0]`. -/
def join (env : Env) (s : HState) (m : irc.Message) : Option (HState × List Act) :=
  match m.params[0]? with
  | none => none
  | some channel =>
    some (s,
      [Act.sendJSON "join" (.join { server := env.host, user := m.sender, channels := m.params })]
      ++ (if env.isSelf m.sender then
            [Act.topicQuery channel,
             Act.sendLastMessages env.host channel 50,
             Act.addChannel env.host channel]
          else [])
      ++ [Act.logEvent env.host "join" [m.sender] [channel]])

/-- `part` handler; reads `msg.Params[0]`, and `msg.Params[1]` as the
reason when exactly two parameters are present. -/
def part (env : Env) (s : HState) (m : irc.Message) : Option (HState × List Act) :=
  match m.params[0]? with
  | none => none
  | some channel =>
    let reason := if m.params.length = 2 then (m.params[1]?).getD "" else ""
    some (s,
      [Act.sendJSON "part" (.part { server := env.host, user := m.sender,
                                    channel := channel, reason := reason })]
      ++ (if env.isSelf m.sender then [Act.removeChannel env.host channel] else [])
      ++ [Act.logEvent env.host "part" [m.sender] [channel]])

/-- `mode` handler: emit only when `irc.GetMode` yields a parsed mode. -/
def mode (env : Env) (s : HState) (m : irc.Message) : HState × List Act :=
  match env.getMode m with
  | some md => (s, [Act.sendJSON "mode" (.mode md)])
  | none => (s, [])

/-- The body of the `message` handler after the CTCP check: build the
message record, route as private message or channel message, and persist
when the effective target is not `*` and the sender is not the server. -/
def messageBody (env : Env) (s : HState) (m : irc.Message) : Option (HState × List Act) :=
  match m.params[0]? with
  | none => none
  | some target =>
    let message : Message :=
      { id := env.newID, server := env.host, from_ := m.sender, content := m.lastParam }
    if env.isSelf target then
      let target2 := message.from_
      some (s,
        [Act.sendJSON "pm" (.message message)]
        ++ (if !m.fromServer then [Act.addOpenDM env.host message.from_] else [])
        ++ (if target2 ≠ "*" ∧ !m.fromServer then
              [Act.logMessage { id := message.id, server := message.server,
                                from_ := message.from_, to_ := target2,
                                content := message.content }]
            else []))
    else
      let message := { message with to_ := target }
      some (s,
        [Act.sendJSON "message" (.message message)]
        ++ (if target ≠ "*" ∧ !m.fromServer then
              [Act.logMessage { id := message.id, server := message.server,
                                from_ := message.from_, to_ := target,
                                content := message.content }]
            else []))

/-- `message` handler (PRIVMSG/NOTICE): the CTCP decision tree, then the
message body.  A DCC SEND that parses is handed to the spawned
`receiveDCCSend`; a DCC SEND that fails to parse falls through to
ordinary processing; a non-ACTION CTCP is dropped. -/
def message (env : Env) (s : HState) (m : irc.Message) : Option (HState × List Act) :=
  match m.ctcp with
  | some ctcp =>
    if ctcp.command = "DCC" ∧ ctcp.params.startsWith "SEND" then
      match env.parseDCCSend ctcp with
      | some pack => some (s, [Act.spawnDCCReceive pack m])
      | none => messageBody env s m
    else if ctcp.command ≠ "ACTION" then some (s, [])
    else messageBody env s m
  | none => messageBody env s m

/-- `quit` handler. -/
def quit (env : Env) (s : HState) (m : irc.Message) : HState × List Act :=
  (s,
    [Act.sendJSON "quit" (.quit { server := env.host, user := m.sender, reason := m.lastParam }),
     Act.logEvent env.host "quit" [m.sender, m.lastParam] (env.getQuitChannels m)])

/-- `info` handler: welcome additionally establishes the session nick
and, when the per-host channel-list cache is stale or absent, creates a
fresh list accumulator and issues a LIST request; every info reply emits
a private-style message with the joined tail parameters
(`msg.Params[1:]`). -/
def info (env : Env) (s : HState) (m : irc.Message) : Option (HState × List Act) :=
  if m.command = irc.RPL_WELCOME then
    match m.params[0]? with
    | none => none
    | some nick0 =>
      let needsUpdate := env.listCacheStale env.host
      let s' := if needsUpdate then { s with listBuffer := some [] } else s
      match sliceFrom m.params 1 with
      | none => none
      | some rest =>
        some (s',
          [Act.sendJSON "nick" (.nick { server := env.host, new := nick0 })]
          ++ (if needsUpdate then [Act.listRequest] else [])
          ++ [Act.setNick nick0 env.host,
              Act.sendJSON "pm" (.message { server := env.host, from_ := m.sender,
                                            content := String.intercalate " " rest })])
  else
    match sliceFrom m.params 1 with
    | none => none
    | some rest =>
      some (s,
        [Act.sendJSON "pm" (.message { server := env.host, from_ := m.sender,
                                       content := String.intercalate " " rest })])

/-- `features` handler. -/
def features (env : Env) (s : HState) (_m : irc.Message) : HState × List Act :=
  (s,
    [Act.sendJSON "features" (.features { server := env.host, features := env.featuresMap })]
    ++ (if env.networkName ≠ "" then [Act.setServerNameIfEmpty env.networkName] else []))

/-- `whoisUser` handler; reads `msg.Params[1] [2] [3] [5]`. -/
def whoisUser (s : HState) (m : irc.Message) : Option (HState × List Act) :=
  match m.params[1]?, m.params[2]?, m.params[3]?, m.params[5]? with
  | some nick1, some username, some host, some realname =>
    some ({ s with whois := { s.whois with
              nick := nick1
              username := username
              host := host
              realname := realname } }, [])
  | _, _, _, _ => none

/-- `whoisServer` handler; reads `msg.Params[2]`. -/
def whoisServer (s : HState) (m : irc.Message) : Option (HState × List Act) :=
  match m.params[2]? with
  | none => none
  | some server => some ({ s with whois := { s.whois with server := server } }, [])

/-- `whoisChannels` handler: append the space-split trailing parameter
(after trimming trailing spaces). -/
def whoisChannels (s : HState) (m : irc.Message) : HState × List Act :=
  ({ s with whois :=
      { s.whois with channels :=
          s.whois.channels ++ (trimRightSpaces m.lastParam).splitOn " " } }, [])

/-- `whoisEnd` handler: emit the accumulated reply only when its nick is
non-empty, then reset the accumulator unconditionally. -/
def whoisEnd (s : HState) (_m : irc.Message) : HState × List Act :=
  ({ s with whois := {} },
   if s.whois.nick ≠ "" then [Act.sendJSON "whois" (.whois s.whois)] else [])

/-- `topic` handler: a live TOPIC carries the author and is logged; a
topic reply (`RPL_TOPIC`) reads the channel from `msg.Params[1]` and has
no nick. -/
def topic (env : Env) (s : HState) (m : irc.Message) : Option (HState × List Act) :=
  if m.command = irc.TOPIC then
    match m.params[0]? with
    | none => none
    | some channel =>
      some (s,
        [Act.logEvent env.host "topic" [m.sender, m.lastParam] [channel],
         Act.sendJSON "topic" (.topic { server := env.host, channel := channel,
                                        topic := m.lastParam, nick := m.sender })])
  else
    match m.params[1]? with
    | none => none
    | some channel =>
      some (s,
        [Act.sendJSON "topic" (.topic { server := env.host, channel := channel,
                                        topic := m.lastParam })])

/-- `noTopic` handler; reads `msg.Params[1]`. -/
def noTopic (env : Env) (s : HState) (m : irc.Message) : Option (HState × List Act) :=
  match m.params[1]? with
  | none => none
  | some channel =>
    some (s, [Act.sendJSON "topic" (.topic { server := env.host, channel := channel })])

/-- `namesEnd` handler; reads `msg.Params[1]`. -/
def namesEnd (env : Env) (s : HState) (m : irc.Message) : Option (HState × List Act) :=
  match m.params[1]? with
  | none => none
  | some channel =>
    some (s,
      [Act.sendJSON "users" (.userlist { server := env.host, channel := channel,
                                         users := env.getNamreplyUsers m })])

/-- `motdStart` handler: set the buffer's server and title (the content
list is left as it is). -/
def motdStart (env : Env) (s : HState) (m : irc.Message) : HState × List Act :=
  ({ s with motdBuffer := { s.motdBuffer with server := env.host, title := m.lastParam } }, [])

/-- `motd` handler: append the trailing parameter to the buffer. -/
def motd (s : HState) (m : irc.Message) : HState × List Act :=
  ({ s with motdBuffer := { s.motdBuffer with
      content := s.motdBuffer.content ++ [m.lastParam] } }, [])

/-- `motdEnd` handler: emit the buffered MOTD unconditionally, then reset
the buffer. -/
def motdEnd (s : HState) (_m : irc.Message) : HState × List Act :=
  ({ s with motdBuffer := {} }, [Act.sendJSON "motd" (.motd s.motdBuffer)])

/-- `list` handler: lazily create the accumulator when the per-host
refresh flag is set, then, when an accumulator is active, add the entry
read from `msg.Params[1]`, `msg.Params[2]` and the trailing topic.  No
event is emitted. -/
def list (env : Env) (s : HState) (m : irc.Message) : Option (HState × List Act) :=
  let s :=
    if s.listBuffer = none ∧ s.flags ("update_chanlist_" ++ env.host) then
      { s with listBuffer := some [] }
    else s
  match s.listBuffer with
  | some buf =>
    match m.params[1]?, m.params[2]? with
    | some name, some cnt =>
      let item : storage.ChannelListItem :=
        { name := name, userCount := atoi cnt, topic := m.lastParam }
      some ({ s with listBuffer := some (buf ++ [item]) }, [])
    | _, _ => none
  | none => some (s, [])

/-- `listEnd` handler: when an accumulator is active, clear the per-host
refresh flag, finish the index and publish it into the process-wide
cache under the connection's host (the spawned goroutine is applied
immediately here), and drop the session's reference. -/
def listEnd (env : Env) (s : HState) (_m : irc.Message) : HState × List Act :=
  match s.listBuffer with
  | some buf =>
    ({ s with
        listBuffer := none,
        flags := fun k => if k = "update_chanlist_" ++ env.host then false else s.flags k,
        channelIndexes := fun k =>
          if k = env.host then some (env.finishIndex buf) else s.channelIndexes k }, [])
  | none => (s, [])

/-- `badNick` handler. -/
def badNick (env : Env) (s : HState) (_m : irc.Message) : HState × List Act :=
  (s, [Act.sendJSON "nick_fail" (.nickFail { server := env.host })])

/-- `forward` handler: emit only when the message has more than two
parameters. -/
def forward (env : Env) (s : HState) (m : irc.Message) : HState × List Act :=
  if 2 < m.params.length then
    match m.params[1]?, m.params[2]? with
    | some old, some new => (s, [Act.sendJSON "channel_forward"
        (.channelForward { server := env.host, old := old, new := new })])
    | _, _ => (s, [])
  else (s, [])

/-- `error` handler (the ERROR command). -/
def error (env : Env) (s : HState) (m : irc.Message) : HState × List Act :=
  (s, [Act.sendJSON "error" (.ircError { server := env.host, message := m.lastParam })])

/-- The handler identities registered by `initHandlers`. -/
inductive HandlerKind where
  | nick | join | part | mode | message | quit | topic | error | info | features
  | whoisUser | whoisServer | whoisChannels | whoisEnd
  | noTopic | namesEnd | motdStart | motd | motdEnd | list | listEnd
  | badNick | forward
deriving DecidableEq, Repr

/-- The `initHandlers` lookup table, as a map from command identifier to
registered handler. -/
def handlerFor (cmd : String) : Option HandlerKind :=
  if cmd = irc.NICK then some .nick
  else if cmd = irc.JOIN then some .join
  else if cmd = irc.PART then some .part
  else if cmd = irc.MODE then some .mode
  else if cmd = irc.PRIVMSG then some .message
  else if cmd = irc.NOTICE then some .message
  else if cmd = irc.QUIT then some .quit
  else if cmd = irc.TOPIC then some .topic
  else if cmd = irc.ERROR then some .error
  else if cmd = irc.RPL_WELCOME then some .info
  else if cmd = irc.RPL_YOURHOST then some .info
  else if cmd = irc.RPL_CREATED then some .info
  else if cmd = irc.RPL_ISUPPORT then some .features
  else if cmd = irc.RPL_LUSERCLIENT then some .info
  else if cmd = irc.RPL_LUSEROP then some .info
  else if cmd = irc.RPL_LUSERUNKNOWN then some .info
  else if cmd = irc.RPL_LUSERCHANNELS then some .info
  else if cmd = irc.RPL_LUSERME then some .info
  else if cmd = irc.RPL_WHOISUSER then some .whoisUser
  else if cmd = irc.RPL_WHOISSERVER then some .whoisServer
  else if cmd = irc.RPL_WHOISCHANNELS then some .whoisChannels
  else if cmd = irc.RPL_ENDOFWHOIS then some .whoisEnd
  else if cmd = irc.RPL_NOTOPIC then some .noTopic
  else if cmd = irc.RPL_TOPIC then some .topic
  else if cmd = irc.RPL_ENDOFNAMES then some .namesEnd
  else if cmd = irc.RPL_MOTDSTART then some .motdStart
  else if cmd = irc.RPL_MOTD then some .motd
  else if cmd = irc.RPL_ENDOFMOTD then some .motdEnd
  else if cmd = irc.RPL_LIST then some .list
  else if cmd = irc.RPL_LISTEND then some .listEnd
  else if cmd = irc.ERR_ERRONEUSNICKNAME then some .badNick
  else if cmd = irc.ERR_FORWARD then some .forward
  else none

/-- Run one registered handler. -/
def runHandler (env : Env) (h : HandlerKind) (s : HState) (m : irc.Message) :
    Option (HState × List Act) :=
  match h with
  | .nick => some (nick env s m)
  | .join => join env s m
  | .part => part env s m
  | .mode => some (mode env s m)
  | .message => message env s m
  | .quit => some (quit env s m)
  | .topic => topic env s m
  | .error => some (error env s m)
  | .info => info env s m
  | .features => some (features env s m)
  | .whoisUser => whoisUser s m
  | .whoisServer => whoisServer s m
  | .whoisChannels => some (whoisChannels s m)
  | .whoisEnd => some (whoisEnd s m)
  | .noTopic => noTopic env s m
  | .namesEnd => namesEnd env s m
  | .motdStart => some (motdStart env s m)
  | .motd => some (motd s m)
  | .motdEnd => some (motdEnd s m)
  | .list => list env s m
  | .listEnd => some (listEnd env s m)
  | .badNick => some (badNick env s m)
  | .forward => some (forward env s m)

/-- `dispatchMessage`: read the command's first character; when it is
`4` and the command is not excluded, first emit the generic
protocol-error event; then run the registered handler, if any. -/
def dispatchMessage (env : Env) (s : HState) (m : irc.Message) :
    Option (HState × List Act) :=
  match m.command.data[0]? with
  | none => none
  | some c0 =>
    let errActs : List Act :=
      if c0 = '4' ∧ isExcludedError m.command = false then
        [Act.sendJSON "error" (.ircError { server := env.host, message := m.lastParam,
                                           target := errTarget m.params })]
      else []
    match handlerFor m.command with
    | none => some (s, errActs)
    | some h =>
      match runHandler env h s m with
      | none => none
      | some (s', acts) => some (s', errActs ++ acts)

/-- `receiveDCCSend`: the DCC offer decision tree, as the ordered trace
of actions the spawned goroutine performs. -/
def receiveDCCSend (cfg : Config) (env : Env) (pack : irc.DCCSend) (m : irc.Message) :
    List Act :=
  if cfg.dccEnabled then
    if cfg.autogetEnabled then
      if env.openFileOk then [Act.downloadDCC pack] else []
    else
      [Act.setPendingDCC pack.file pack,
       Act.sendJSON "dcc_send" (.dccSend
         { server := env.host, from_ := m.sender, filename := pack.file,
           url := env.scheme ++ "://" ++ env.webHost ++ "/downloads/"
                  ++ env.username ++ "/" ++ pack.file }),
       Act.sleep 150,
       Act.deletePendingDCC pack.file]
  else []

/-- Render a nonnegative rational with one digit after the decimal
point, modelling Go's `%.1f` (the source formats float64 values; the
binary rounding of the float conversion is approximated by rounding the
rational half up). -/
def fmt1 (q : ℚ) : String :=
  let n : Int := ⌊q * 10 + 1 / 2⌋
  toString (n / 10) ++ "." ++ String.mk [Nat.digitChar (n % 10).toNat]

/-- `sendDCCInfo`: emit the status as a private message from the
synthetic `@dcc` sender; when `log` is set, additionally register the
conversation and persist the message. -/
def sendDCCInfo (env : Env) (content : String) (log : Bool) : List Act :=
  [Act.sendJSON "pm" (.message { server := env.host, from_ := "@dcc", content := content })]
  ++ (if log then
        [Act.addOpenDM env.host "@dcc",
         Act.logMessage { server := env.host, from_ := "@dcc", content := content }]
      else [])

/-- The DCC-progress arm of the run loop: choose the status message by
precedence (error, completion, start, continuation). -/
def dccProgressStep (env : Env) (p : irc.DownloadProgress) : List Act :=
  match p.error with
  | some e => sendDCCInfo env (p.file ++ ": Download failed (" ++ e ++ ")") true
  | none =>
    if p.percCompletion = 100 then
      sendDCCInfo env ("Download finished, get it here: " ++ env.scheme ++ "://"
        ++ env.webHost ++ "/downloads/" ++ env.username ++ "/" ++ p.file) true
    else if p.percCompletion = 0 then
      sendDCCInfo env (p.file ++ ": Starting download") true
    else
      sendDCCInfo env (p.file ++ ": " ++ fmt1 p.percCompletion ++ "%, " ++ p.speed
        ++ ", " ++ p.bytesRemaining ++ " remaining, " ++ fmt1 p.secondsToGo
        ++ "s left") false

/-- The connection-state arm of the run loop: always emit the update
event and record the state; log the error only when its text differs
from the last logged error (`lastConnErr`), else log success when now
connected.  Returns the new `lastConnErr` and the actions. -/
def connStep (env : Env) (lastConnErr : Option String) (st : irc.ConnectionState) :
    Option String × List Act :=
  let base : List Act :=
    [Act.sendJSON "connection_update" (.connectionUpdate env.host st.connected st.error),
     Act.setConnectionState st.connected st.error]
  match st.error with
  | some e =>
    if lastConnErr = none ∨ lastConnErr ≠ some e then
      (some e, base ++ [Act.logConnError e])
    else if st.connected then (lastConnErr, base ++ [Act.logConnected])
    else (lastConnErr, base)
  | none =>
    if st.connected then (lastConnErr, base ++ [Act.logConnected])
    else (lastConnErr, base)

/-- Fold of `connStep` over a sequence of connection-state
notifications, accumulating the action trace. -/
def connRun (env : Env) (lastConnErr : Option String) :
    List irc.ConnectionState → Option String × List Act
  | [] => (lastConnErr, [])
  | st :: rest =>
    let (l', acts) := connStep env lastConnErr st
    let (l'', acts') := connRun env l' rest
    (l'', acts ++ acts')

/-! ## Concrete instances used by the witness theorems -/

/-- A concrete session environment for evaluating the theorems. -/
def env0 : Env :=
  { host := "irc.example.net", isSelf := fun x => x == "alice",
    username := "alice", scheme := "https", webHost := "dispatch.example",
    newID := "id1" }

/-- The fresh session state (empty accumulators, no flags, empty cache). -/
def s0 : HState := {}

/-! ## Claims -/

/-- C2: for every WHOIS end-marker, a whois-result event is emitted iff
the accumulator's nick is non-empty at that point (so an end-marker with
no preceding whois-user message emits nothing), the emitted event's nick
is verbatim the nick parameter (`Params[1]`) of the preceding whois-user
message, and after the end-marker the accumulator equals the empty value
whether or not an event was emitted. -/
theorem whois_end_spec (s : HState) (m mU : irc.Message) :
    ((whoisEnd s m).2 =
      if s.whois.nick ≠ "" then [Act.sendJSON "whois" (.whois s.whois)] else []) ∧
    ((whoisEnd s m).1.whois = {}) ∧
    (∀ s1 sU acts t, mU.params[1]? = some t → whoisUser s1 mU = some (sU, acts) →
      sU.whois.nick = t ∧
      (whoisEnd sU m).2 =
        if t ≠ "" then [Act.sendJSON "whois" (.whois sU.whois)] else []) := by
  refine ⟨rfl, rfl, ?_⟩
  intro s1 sU acts t ht hU
  unfold whoisUser at hU
  rw [ht] at hU
  split at hU
  · rename_i nick1 username host realname heq1 heq2 heq3 heq5
    injection heq1 with e1
    injection hU with hU'
    injection hU' with hsU hacts
    subst e1
    rw [← hsU]
    exact ⟨rfl, rfl⟩
  · exact absurd hU (by simp)

/-- Witness for C2 at a concrete WHOIS sequence: a whois-user message for
nick `bob` followed by the end-marker emits the whois event with nick
`bob`. -/
theorem whois_end_spec_witness :
    ({ s0 with whois := { nick := "bob", username := "u", host := "h",
                          realname := "Bob" } } : HState).whois.nick = "bob" ∧
    (whoisEnd { s0 with whois := { nick := "bob", username := "u", host := "h",
                                   realname := "Bob" } }
      { command := irc.RPL_ENDOFWHOIS, params := ["me", "bob", "End"] }).2 =
      [Act.sendJSON "whois" (.whois { nick := "bob", username := "u", host := "h",
                                      realname := "Bob" })] := by
  have h := (whois_end_spec s0
    { command := irc.RPL_ENDOFWHOIS, params := ["me", "bob", "End"] }
    { command := irc.RPL_WHOISUSER, params := ["me", "bob", "u", "h", "*", "Bob"] }).2.2
    s0 _ [] "bob" rfl rfl
  simpa using h

/-- C6: for a detected DCC offer with DCC enabled and auto-accept
disabled, the spawned goroutine records a pending offer keyed by the
file name, emits a dcc-offer event whose URL is exactly
`scheme://host/downloads/<user>/<file>`, waits the fixed 150-second
expiry, and removes the pending offer with no further event; with DCC
disabled, nothing happens at all. -/
theorem dcc_offer_spec (cfg : Config) (env : Env) (pack : irc.DCCSend)
    (m : irc.Message) :
    (cfg.dccEnabled = true → cfg.autogetEnabled = false →
      receiveDCCSend cfg env pack m =
        [Act.setPendingDCC pack.file pack,
         Act.sendJSON "dcc_send" (.dccSend
           { server := env.host, from_ := m.sender, filename := pack.file,
             url := env.scheme ++ "://" ++ env.webHost ++ "/downloads/"
                    ++ env.username ++ "/" ++ pack.file }),
         Act.sleep 150,
         Act.deletePendingDCC pack.file]) ∧
    (cfg.dccEnabled = false → receiveDCCSend cfg env pack m = []) := by
  constructor
  · intro h1 h2; simp [receiveDCCSend, h1, h2]
  · intro h1; simp [receiveDCCSend, h1]

/-- Witness for C6 at a concrete offer: the four-action trace with the
constructed URL, and the silent drop when DCC is disabled. -/
theorem dcc_offer_spec_witness :
    receiveDCCSend { dccEnabled := true } env0 { file := "a.txt", length := 9 }
      { command := irc.PRIVMSG, params := ["alice"], sender := "bob" } =
      [Act.setPendingDCC "a.txt" { file := "a.txt", length := 9 },
       Act.sendJSON "dcc_send" (.dccSend
         { server := "irc.example.net", from_ := "bob", filename := "a.txt",
           url := "https://dispatch.example/downloads/alice/a.txt" }),
       Act.sleep 150,
       Act.deletePendingDCC "a.txt"] ∧
    receiveDCCSend {} env0 { file := "a.txt", length := 9 }
      { command := irc.PRIVMSG, params := ["alice"], sender := "bob" } = [] := by
  constructor
  · have h := (dcc_offer_spec { dccEnabled := true } env0 { file := "a.txt", length := 9 }
      { command := irc.PRIVMSG, params := ["alice"], sender := "bob" }).1 rfl rfl
    simpa using h
  · exact (dcc_offer_spec {} env0 { file := "a.txt", length := 9 }
      { command := irc.PRIVMSG, params := ["alice"], sender := "bob" }).2 rfl

/-- The MOTD buffer after folding line messages over a state: server and
title are untouched, and the last parameters are appended in arrival
order. -/
theorem motd_fold (lines : List irc.Message) (st : HState) :
    (lines.foldl (fun acc l => (motd acc l).1) st).motdBuffer.server
        = st.motdBuffer.server ∧
    (lines.foldl (fun acc l => (motd acc l).1) st).motdBuffer.title
        = st.motdBuffer.title ∧
    (lines.foldl (fun acc l => (motd acc l).1) st).motdBuffer.content
        = st.motdBuffer.content ++ lines.map (fun l => l.lastParam) := by
  induction lines generalizing st with
  | nil => simp
  | cons l ls ih =>
    have h := ih ((motd st l).1)
    simpa [motd, List.append_assoc] using h

/-- C7 (amended): a start message sets the buffer's server and title but
leaves previously accumulated content in place; each line message
appends its last parameter in arrival order; the end message always
emits exactly one motd event and then resets the buffer, even when no
start or lines preceded it.  The emitted content is the lines
accumulated since the buffer was last reset; in particular, when the
start message finds the content buffer empty (as after any end-marker
or at session start), the event's content is exactly the line messages
received since that start, in arrival order. -/
theorem motd_spec (env : Env) (s : HState) (mS mE : irc.Message)
    (lines : List irc.Message) (hempty : s.motdBuffer.content = []) :
    ((lines.foldl (fun acc l => (motd acc l).1) (motdStart env s mS).1).motdBuffer =
      { server := env.host, title := mS.lastParam,
        content := lines.map (fun l => l.lastParam) }) ∧
    ((motdEnd (lines.foldl (fun acc l => (motd acc l).1) (motdStart env s mS).1) mE).2 =
      [Act.sendJSON "motd" (.motd { server := env.host, title := mS.lastParam,
                                    content := lines.map (fun l => l.lastParam) })]) ∧
    ((motdEnd (lines.foldl (fun acc l => (motd acc l).1) (motdStart env s mS).1)
        mE).1.motdBuffer = {}) ∧
    (∀ s' : HState, (motdEnd s' mE).2 = [Act.sendJSON "motd" (.motd s'.motdBuffer)] ∧
      (motdEnd s' mE).1.motdBuffer = {}) := by
  obtain ⟨hs, ht, hc⟩ := motd_fold lines (motdStart env s mS).1
  have hbuf : (lines.foldl (fun acc l => (motd acc l).1)
      (motdStart env s mS).1).motdBuffer =
      { server := env.host, title := mS.lastParam,
        content := lines.map (fun l => l.lastParam) } := by
    have hs' : (motdStart env s mS).1.motdBuffer.server = env.host := rfl
    have ht' : (motdStart env s mS).1.motdBuffer.title = mS.lastParam := rfl
    have hc' : (motdStart env s mS).1.motdBuffer.content = s.motdBuffer.content := rfl
    cases hb : (lines.foldl (fun acc l => (motd acc l).1)
        (motdStart env s mS).1).motdBuffer
    rw [hb] at hs ht hc
    rw [ht'] at ht; rw [hc', hempty] at hc
    simp_all
  refine ⟨hbuf, ?_, rfl, fun s' => ⟨rfl, rfl⟩⟩
  show [Act.sendJSON "motd" (.motd (lines.foldl (fun acc l => (motd acc l).1)
      (motdStart env s mS).1).motdBuffer)] = _
  rw [hbuf]

/-- C7 counterexample: with a start, one line, and a second start before
the end, the end-marker's event carries the line accumulated before the
second start — its content length is 1, not the 0 line messages received
since the last start, because `motdStart` does not clear the content
buffer. -/
theorem motd_stale_content_counterexample :
    (motdEnd
      (motdStart env0
        (motd (motdStart env0 s0
            { command := irc.RPL_MOTDSTART, params := ["me", "- Title -"] }).1
          { command := irc.RPL_MOTD, params := ["me", "line1"] }).1
        { command := irc.RPL_MOTDSTART, params := ["me", "- Title -"] }).1
      { command := irc.RPL_ENDOFMOTD, params := ["me", "End"] }).2 =
      [Act.sendJSON "motd" (.motd { server := "irc.example.net",
                                    title := "- Title -", content := ["line1"] })] ∧
    (["line1"] : List String).length ≠ 0 := by
  exact ⟨rfl, by decide⟩

/-- Witness for C7 at a concrete sequence: start, two lines, end emits
the two lines in order and resets the buffer. -/
theorem motd_spec_witness :
    (motdEnd
      ([({ command := irc.RPL_MOTD, params := ["me", "l1"] } : irc.Message),
        { command := irc.RPL_MOTD, params := ["me", "l2"] }].foldl
        (fun acc l => (motd acc l).1)
        (motdStart env0 s0
          { command := irc.RPL_MOTDSTART, params := ["me", "- T -"] }).1)
      { command := irc.RPL_ENDOFMOTD, params := ["me", "End"] }).2 =
      [Act.sendJSON "motd" (.motd { server := "irc.example.net", title := "- T -",
                                    content := ["l1", "l2"] })] := by
  have h := (motd_spec env0 s0
    { command := irc.RPL_MOTDSTART, params := ["me", "- T -"] }
    { command := irc.RPL_ENDOFMOTD, params := ["me", "End"] }
    [{ command := irc.RPL_MOTD, params := ["me", "l1"] },
     { command := irc.RPL_MOTD, params := ["me", "l2"] }] rfl).2.1
  simpa using h

/-- C4: every DCC transfer-progress notification produces exactly one
status message, selected by precedence — error (failure format), then
percent 100 (completion format with the download URL), then percent 0
(start format), then the intermediate format with percent and ETA each
rendered with one digit after the decimal point; the first three are
logged (persisted from the synthetic sender `@dcc` and registered as an
open conversation), the intermediate one is not. -/
theorem dcc_progress_spec (env : Env) (p : irc.DownloadProgress) :
    (∀ e, p.error = some e →
      dccProgressStep env p =
        sendDCCInfo env (p.file ++ ": Download failed (" ++ e ++ ")") true) ∧
    (p.error = none → p.percCompletion = 100 →
      dccProgressStep env p =
        sendDCCInfo env ("Download finished, get it here: " ++ env.scheme ++ "://"
          ++ env.webHost ++ "/downloads/" ++ env.username ++ "/" ++ p.file) true) ∧
    (p.error = none → p.percCompletion = 0 →
      dccProgressStep env p =
        sendDCCInfo env (p.file ++ ": Starting download") true) ∧
    (p.error = none → p.percCompletion ≠ 100 → p.percCompletion ≠ 0 →
      dccProgressStep env p =
        sendDCCInfo env (p.file ++ ": " ++ fmt1 p.percCompletion ++ "%, " ++ p.speed
          ++ ", " ++ p.bytesRemaining ++ " remaining, " ++ fmt1 p.secondsToGo
          ++ "s left") false) ∧
    ((dccProgressStep env p).countP
      (fun a => match a with | Act.sendJSON n _ => n == "pm" | _ => false) = 1) ∧
    (∀ text, sendDCCInfo env text true =
      [Act.sendJSON "pm" (.message { server := env.host, from_ := "@dcc", content := text }),
       Act.addOpenDM env.host "@dcc",
       Act.logMessage { server := env.host, from_ := "@dcc", content := text }]) ∧
    (∀ text, sendDCCInfo env text false =
      [Act.sendJSON "pm" (.message { server := env.host, from_ := "@dcc", content := text })]) ∧
    (∀ q : ℚ, ∃ intPart d, fmt1 q = intPart ++ "." ++ String.mk [d]) := by
  refine ⟨?_, ?_, ?_, ?_, ?_, fun text => rfl, fun text => rfl, fun q => ⟨_, _, rfl⟩⟩
  · intro e he; simp [dccProgressStep, he]
  · intro he h100; simp [dccProgressStep, he, h100]
  · intro he h0
    have : (0 : ℚ) ≠ 100 := by norm_num
    simp [dccProgressStep, he, h0, this]
  · intro he h100 h0; simp [dccProgressStep, he, h100, h0]
  · rcases he : p.error with _ | e
    · by_cases h100 : p.percCompletion = 100
      · simp [dccProgressStep, he, h100, sendDCCInfo, List.countP_cons]
      · by_cases h0 : p.percCompletion = 0
        · simp [dccProgressStep, he, h100, h0, sendDCCInfo, List.countP_cons]
        · simp [dccProgressStep, he, h100, h0, sendDCCInfo, List.countP_cons]
    · simp [dccProgressStep, he, sendDCCInfo, List.countP_cons]

/-- Witness for C4 at a concrete intermediate progress value: percent
42.5 with 3.5 seconds to go yields the unlogged one-decimal
intermediate status. -/
theorem dcc_progress_spec_witness :
    dccProgressStep env0
      { file := "f.bin", percCompletion := 85 / 2, speed := "1.0 MB/s",
        bytesRemaining := "10 MB", secondsToGo := 7 / 2 } =
      [Act.sendJSON "pm" (.message
        { server := "irc.example.net", from_ := "@dcc",
          content := "f.bin" ++ ": " ++ fmt1 (85 / 2) ++ "%, " ++ "1.0 MB/s" ++ ", "
            ++ "10 MB" ++ " remaining, " ++ fmt1 (7 / 2) ++ "s left" })] := by
  have h := (dcc_progress_spec env0
    { file := "f.bin", percCompletion := 85 / 2, speed := "1.0 MB/s",
      bytesRemaining := "10 MB", secondsToGo := 7 / 2 }).2.2.2.1
    rfl (by norm_num) (by norm_num)
  simpa [sendDCCInfo] using h

/-- C5: a channel-list entry is added to the session's accumulator when
one is active, or, when none is active but the per-host
refresh-requested flag is set, to a freshly created accumulator; with no
accumulator and the flag clear the entry is ignored; in every case no
event is emitted.  A list-end with an active accumulator clears the
per-host flag, publishes the finished accumulator into the process-wide
cache under the connection's host key (replacing any prior value) while
leaving every other key untouched, and empties the session's
accumulator reference; a list-end with no active accumulator changes
nothing. -/
theorem channel_list_spec (env : Env) (s : HState) (m mE : irc.Message)
    (buf : List storage.ChannelListItem) (name cnt : String) :
    (s.listBuffer = some buf → m.params[1]? = some name →
      m.params[2]? = some cnt →
      list env s m = some
        ({ s with listBuffer := some (buf ++ [{ name := name
                                                userCount := atoi cnt
                                                topic := m.lastParam }]) }, [])) ∧
    (s.listBuffer = none → s.flags ("update_chanlist_" ++ env.host) = true →
      m.params[1]? = some name → m.params[2]? = some cnt →
      list env s m = some
        ({ s with listBuffer := some [{ name := name
                                        userCount := atoi cnt
                                        topic := m.lastParam }] }, [])) ∧
    (s.listBuffer = none → s.flags ("update_chanlist_" ++ env.host) = false →
      list env s m = some (s, [])) ∧
    (s.listBuffer = some buf →
      (listEnd env s mE).2 = [] ∧
      (listEnd env s mE).1.listBuffer = none ∧
      (listEnd env s mE).1.flags ("update_chanlist_" ++ env.host) = false ∧
      (listEnd env s mE).1.channelIndexes env.host = some (env.finishIndex buf) ∧
      (∀ k, k ≠ env.host → (listEnd env s mE).1.channelIndexes k = s.channelIndexes k)) ∧
    (s.listBuffer = none → listEnd env s mE = (s, [])) := by
  refine ⟨?_, ?_, ?_, ?_, ?_⟩
  · intro hbuf h1 h2
    simp [list, hbuf, h1, h2]
  · intro hbuf hflag h1 h2
    simp [list, hbuf, hflag, h1, h2]
  · intro hbuf hflag
    simp [list, hbuf, hflag]
  · intro hbuf
    refine ⟨by simp [listEnd, hbuf], by simp [listEnd, hbuf], ?_, ?_, ?_⟩
    · simp [listEnd, hbuf]
    · simp [listEnd, hbuf]
    · intro k hk; simp [listEnd, hbuf, hk]
  · intro hbuf
    simp [listEnd, hbuf]

/-- Witness for C5 at a concrete session: an entry for `#a` with 7 users
is appended to an active accumulator, and the following list-end
publishes it under the connection's host and clears the flag and the
reference. -/
theorem channel_list_spec_witness :
    list env0 { s0 with listBuffer := some [] }
      { command := irc.RPL_LIST, params := ["me", "#a", "7", "topic a"] } =
      some ({ s0 with listBuffer := some [{ name := "#a", userCount := 7, topic := "topic a" }] }, []) ∧
    (listEnd env0 { s0 with listBuffer := some [{ name := "#a", userCount := 7, topic := "topic a" }] }
      { command := irc.RPL_LISTEND, params := ["me", "End"] }).1.channelIndexes
        "irc.example.net" =
      some [{ name := "#a", userCount := 7, topic := "topic a" }] := by
  constructor
  · have h := (channel_list_spec env0 { s0 with listBuffer := some [] }
      { command := irc.RPL_LIST, params := ["me", "#a", "7", "topic a"] }
      { command := irc.RPL_LISTEND, params := ["me", "End"] } [] "#a" "7").1
      rfl rfl rfl
    exact h
  · have h := (channel_list_spec env0
      { s0 with listBuffer := some [{ name := "#a", userCount := 7, topic := "topic a" }] }
      { command := irc.RPL_LIST, params := ["me", "#a", "7", "topic a"] }
      { command := irc.RPL_LISTEND, params := ["me", "End"] }
      [{ name := "#a", userCount := 7, topic := "topic a" }] "#a" "7").2.2.2.1
      rfl
    exact h.2.2.2.1

/-- C8: in the run loop's connection-state arm, a notification carrying
an error logs the error exactly when its text differs from the most
recently logged error (held in `lastConnErr`, which is updated exactly
when a log happens), so two consecutive identical error notifications
never log twice; a notification with no error that reports connected
always logs success. -/
theorem conn_logging_spec (env : Env) (l : Option String)
    (st : irc.ConnectionState) :
    (∀ e, st.error = some e →
      (Act.logConnError e ∈ (connStep env l st).2 ↔ l ≠ some e)) ∧
    (∀ e, st.error = some e →
      ¬ (Act.logConnError e ∈ (connStep env l st).2 ∧
         Act.logConnError e ∈ (connStep env (connStep env l st).1 st).2)) ∧
    (st.error = none → st.connected = true →
      Act.logConnected ∈ (connStep env l st).2) ∧
    (∀ e, st.error = some e →
      (connStep env l st).1 = if l = some e then l else some e) ∧
    (st.error = none → (connStep env l st).1 = l) := by
  have key : ∀ e, st.error = some e →
      (Act.logConnError e ∈ (connStep env l st).2 ↔ l ≠ some e) := by
    intro e he
    by_cases hl : l = some e
    · simp [connStep, he, hl]
      cases hc : st.connected <;> simp [hc]
    · simp [connStep, he, hl]
  refine ⟨key, ?_, ?_, ?_, ?_⟩
  · intro e he hcon
    rcases hcon with ⟨h1, h2⟩
    have hl : l ≠ some e := (key e he).mp h1
    have hstep : (connStep env l st).1 = some e := by
      simp [connStep, he, hl]
    rw [hstep] at h2
    have hnot : Act.logConnError e ∉ (connStep env (some e) st).2 := by
      cases hc : st.connected <;> simp [connStep, he, hc]
    exact hnot h2
  · intro he hc
    simp [connStep, he, hc]
  · intro e he
    by_cases hl : l = some e <;> simp [connStep, he, hl]
    cases hc : st.connected <;> simp
  · intro he
    cases hc : st.connected <;> simp [connStep, he, hc]

/-- Witness for C8 at concrete notifications: a first `timeout` error is
logged, an identical consecutive one is not, and a no-error connected
notification logs success. -/
theorem conn_logging_spec_witness :
    Act.logConnError "timeout" ∈
      (connStep env0 none { error := some "timeout" }).2 ∧
    Act.logConnError "timeout" ∉
      (connStep env0 (some "timeout") { error := some "timeout" }).2 ∧
    Act.logConnected ∈ (connStep env0 none { connected := true }).2 := by
  refine ⟨?_, ?_, ?_⟩
  · exact ((conn_logging_spec env0 none
      { error := some "timeout" }).1 "timeout" rfl).mpr (by simp)
  · intro hmem
    exact ((conn_logging_spec env0 (some "timeout")
      { error := some "timeout" }).1 "timeout" rfl).mp hmem rfl
  · exact (conn_logging_spec env0 none { connected := true }).2.2.1 rfl rfl

/-- An index that yields a value is in bounds. -/
theorem getElem?_some_lt {A : Type} (l : List A) (i : Nat) (a : A)
    (h : l[i]? = some a) : i < l.length := by
  by_contra hlt
  rw [List.getElem?_eq_none_iff.mpr (by omega)] at h
  exact Option.noConfusion h

/-- An in-bounds index yields a value. -/
theorem getElem?_some_of_lt {A : Type} (l : List A) (i : Nat)
    (h : i < l.length) : ∃ a, l[i]? = some a := by
  rw [List.getElem?_eq_getElem h]
  exact ⟨_, rfl⟩

/-- `errTarget` as a closed expression over the parameter list. -/
theorem errTarget_eq (params : List String) :
    errTarget params =
      if 2 < params.length then
        ((params.drop 1).find? (fun p => isChannel p)).getD ""
      else "" := by
  unfold errTarget
  by_cases h : 2 < params.length
  · simp only [h, if_true]
    cases (params.drop 1).find? (fun p => isChannel p) <;> rfl
  · simp [h]

/-- Two strings with different head characters differ. -/
theorem ne_of_head_char {cmd lit : String} (h4 : cmd.data[0]? = some '4')
    (hL : lit.data[0]? ≠ some '4') : cmd ≠ lit :=
  fun he => hL (he ▸ h4)

/-- A command whose first character is `4` and which is not excluded is
either unregistered or registered to the dedicated bad-nick handler. -/
theorem handlerFor_err (cmd : String) (h4 : cmd.data[0]? = some '4')
    (hex : isExcludedError cmd = false) :
    handlerFor cmd = none ∨ handlerFor cmd = some HandlerKind.badNick := by
  have n470 : cmd ≠ irc.ERR_FORWARD := by
    intro he; rw [he] at hex; exact absurd hex (by decide)
  by_cases hc : cmd = irc.ERR_ERRONEUSNICKNAME
  · right
    rw [hc]
    rfl
  · left
    unfold handlerFor
    rw [if_neg (ne_of_head_char h4 (by decide) : cmd ≠ irc.NICK),
        if_neg (ne_of_head_char h4 (by decide) : cmd ≠ irc.JOIN),
        if_neg (ne_of_head_char h4 (by decide) : cmd ≠ irc.PART),
        if_neg (ne_of_head_char h4 (by decide) : cmd ≠ irc.MODE),
        if_neg (ne_of_head_char h4 (by decide) : cmd ≠ irc.PRIVMSG),
        if_neg (ne_of_head_char h4 (by decide) : cmd ≠ irc.NOTICE),
        if_neg (ne_of_head_char h4 (by decide) : cmd ≠ irc.QUIT),
        if_neg (ne_of_head_char h4 (by decide) : cmd ≠ irc.TOPIC),
        if_neg (ne_of_head_char h4 (by decide) : cmd ≠ irc.ERROR),
        if_neg (ne_of_head_char h4 (by decide) : cmd ≠ irc.RPL_WELCOME),
        if_neg (ne_of_head_char h4 (by decide) : cmd ≠ irc.RPL_YOURHOST),
        if_neg (ne_of_head_char h4 (by decide) : cmd ≠ irc.RPL_CREATED),
        if_neg (ne_of_head_char h4 (by decide) : cmd ≠ irc.RPL_ISUPPORT),
        if_neg (ne_of_head_char h4 (by decide) : cmd ≠ irc.RPL_LUSERCLIENT),
        if_neg (ne_of_head_char h4 (by decide) : cmd ≠ irc.RPL_LUSEROP),
        if_neg (ne_of_head_char h4 (by decide) : cmd ≠ irc.RPL_LUSERUNKNOWN),
        if_neg (ne_of_head_char h4 (by decide) : cmd ≠ irc.RPL_LUSERCHANNELS),
        if_neg (ne_of_head_char h4 (by decide) : cmd ≠ irc.RPL_LUSERME),
        if_neg (ne_of_head_char h4 (by decide) : cmd ≠ irc.RPL_WHOISUSER),
        if_neg (ne_of_head_char h4 (by decide) : cmd ≠ irc.RPL_WHOISSERVER),
        if_neg (ne_of_head_char h4 (by decide) : cmd ≠ irc.RPL_WHOISCHANNELS),
        if_neg (ne_of_head_char h4 (by decide) : cmd ≠ irc.RPL_ENDOFWHOIS),
        if_neg (ne_of_head_char h4 (by decide) : cmd ≠ irc.RPL_NOTOPIC),
        if_neg (ne_of_head_char h4 (by decide) : cmd ≠ irc.RPL_TOPIC),
        if_neg (ne_of_head_char h4 (by decide) : cmd ≠ irc.RPL_ENDOFNAMES),
        if_neg (ne_of_head_char h4 (by decide) : cmd ≠ irc.RPL_MOTDSTART),
        if_neg (ne_of_head_char h4 (by decide) : cmd ≠ irc.RPL_MOTD),
        if_neg (ne_of_head_char h4 (by decide) : cmd ≠ irc.RPL_ENDOFMOTD),
        if_neg (ne_of_head_char h4 (by decide) : cmd ≠ irc.RPL_LIST),
        if_neg (ne_of_head_char h4 (by decide) : cmd ≠ irc.RPL_LISTEND),
        if_neg hc, if_neg n470]

/-- An excluded error code is either unregistered or registered to the
forward handler. -/
theorem handlerFor_excluded (cmd : String) (hex : isExcludedError cmd = true) :
    handlerFor cmd = none ∨ handlerFor cmd = some HandlerKind.forward := by
  have hmem : cmd = irc.ERR_NICKNAMEINUSE ∨ cmd = irc.ERR_NICKCOLLISION ∨
      cmd = irc.ERR_UNAVAILRESOURCE ∨ cmd = irc.ERR_FORWARD := by
    simpa [isExcludedError, excludedErrors] using hex
  rcases hmem with h | h | h | h <;> subst h <;>
    first
      | exact Or.inl rfl
      | exact Or.inr rfl

/-- C1 (amended): an inbound reply whose command identifier begins with
the digit 4 and is not excluded first emits a protocol-error event with
the connection host as server and the last parameter as text; its
target is the first channel-shaped parameter among the parameters at
positions after the first, and only when the message has more than two
parameters — otherwise the target is empty.  The four excluded
identifiers never produce a protocol-error event. -/
theorem error_reply_spec (env : Env) (s : HState) (m : irc.Message) (c0 : Char)
    (h0 : m.command.data[0]? = some c0) :
    (c0 = '4' → isExcludedError m.command = false →
      ∃ s' rest, dispatchMessage env s m = some (s',
        Act.sendJSON "error" (.ircError
          { server := env.host, message := m.lastParam,
            target := if 2 < m.params.length then
                ((m.params.drop 1).find? (fun p => isChannel p)).getD ""
              else "" }) :: rest)) ∧
    (isExcludedError m.command = true →
      ∀ s' acts, dispatchMessage env s m = some (s', acts) →
        ∀ e, Act.sendJSON "error" (.ircError e) ∉ acts) := by
  constructor
  · intro h4 hex
    subst h4
    rcases handlerFor_err m.command h0 hex with hf | hf
    · refine ⟨s, [], ?_⟩
      simp [dispatchMessage, h0, hf, hex, errTarget_eq]
    · refine ⟨s, [Act.sendJSON "nick_fail" (.nickFail { server := env.host })], ?_⟩
      simp [dispatchMessage, h0, hf, hex, errTarget_eq, runHandler, badNick]
  · intro hext s' acts hdisp e
    rcases handlerFor_excluded m.command hext with hf | hf
    · have hd : dispatchMessage env s m = some (s, []) := by
        simp [dispatchMessage, h0, hf, hext]
      rw [hd] at hdisp
      injection hdisp with hpair
      injection hpair with hs hacts
      subst hacts
      simp
    · rcases hfw : forward env s m with ⟨s2, acts2⟩
      have hd : dispatchMessage env s m = some (s2, acts2) := by
        simp [dispatchMessage, h0, hf, hext, runHandler, hfw]
      rw [hd] at hdisp
      injection hdisp with hpair
      injection hpair with hs hacts
      subst hacts
      have hshape : acts2 = [] ∨ ∃ old new, acts2 =
          [Act.sendJSON "channel_forward" (.channelForward
            { server := env.host, old := old, new := new })] := by
        unfold forward at hfw
        split_ifs at hfw with hlen
        · split at hfw
          · rename_i old new h1 h2
            injection hfw with e1 e2
            exact Or.inr ⟨old, new, e2.symm⟩
          · injection hfw with e1 e2
            exact Or.inl e2.symm
        · injection hfw with e1 e2
          exact Or.inl e2.symm
      rcases hshape with h | ⟨old, new, h⟩ <;> subst h <;> simp

/-- C1 counterexample to the claim as stated: the 404 reply below has a
channel-shaped parameter among its arguments (`#chan`, in first
position, with only two parameters), yet the emitted protocol-error
event carries an empty target, not `#chan`. -/
theorem error_reply_target_counterexample :
    Option.map Prod.snd (dispatchMessage env0 s0
      { command := "404", params := ["#chan", "Cannot send to channel"] }) =
      some [Act.sendJSON "error" (.ircError
        { server := "irc.example.net", message := "Cannot send to channel",
          target := "" })] ∧
    isChannel "#chan" = true ∧ ("" : String) ≠ "#chan" := by
  exact ⟨rfl, rfl, by decide⟩

/-- Witness for C1 at a concrete 404 reply with three parameters: the
error event is emitted first, with the channel `#chan` (at index 1) as
target. -/
theorem error_reply_spec_witness :
    ∃ s' rest, dispatchMessage env0 s0
      { command := "404", params := ["nick", "#chan", "text"] } = some (s',
      Act.sendJSON "error" (.ircError
        { server := "irc.example.net", message := "text",
          target := "#chan" }) :: rest) := by
  obtain ⟨s', rest, h⟩ := (error_reply_spec env0 s0
    { command := "404", params := ["nick", "#chan", "text"] } '4' rfl).1 rfl rfl
  exact ⟨s', rest, h⟩

/-- C10: a message with the erroneous-nickname code (432) emits, in
order, the generic protocol-error event and then the dedicated
nick-rejected event from its registered handler; more generally the
error conversion only prepends to the registered handler output and
never suppresses it. -/
theorem badnick_double_event_spec (env : Env) (s : HState) :
    (∀ m : irc.Message, m.command = irc.ERR_ERRONEUSNICKNAME →
      Option.map Prod.snd (dispatchMessage env s m) =
        some [Act.sendJSON "error" (.ircError
                { server := env.host, message := m.lastParam, target := errTarget m.params }),
              Act.sendJSON "nick_fail" (.nickFail { server := env.host })]) ∧
    (∀ (m : irc.Message) c0 h s' acts, m.command.data[0]? = some c0 →
      handlerFor m.command = some h → runHandler env h s m = some (s', acts) →
      dispatchMessage env s m = some (s',
        (if c0 = '4' ∧ isExcludedError m.command = false then
          [Act.sendJSON "error" (.ircError
            { server := env.host, message := m.lastParam, target := errTarget m.params })]
         else []) ++ acts)) := by
  constructor
  · intro m hcmd
    have h0 : m.command.data[0]? = some '4' := by rw [hcmd]; rfl
    have hf : handlerFor m.command = some HandlerKind.badNick := by rw [hcmd]; rfl
    have hex : isExcludedError m.command = false := by rw [hcmd]; rfl
    simp [dispatchMessage, h0, hf, hex, runHandler, badNick]
  · intro m c0 h s' acts h0 hf hrun
    simp [dispatchMessage, h0, hf, hrun]

/-- Witness for C10 at a concrete 432 reply: both events, in order. -/
theorem badnick_double_event_spec_witness :
    Option.map Prod.snd (dispatchMessage env0 s0
      { command := "432", params := ["me", "bad!nick", "Erroneous nickname"] }) =
      some [Act.sendJSON "error" (.ircError
              { server := "irc.example.net", message := "Erroneous nickname",
                target := "" }),
            Act.sendJSON "nick_fail" (.nickFail { server := "irc.example.net" })] := by
  have h := (badnick_double_event_spec env0 s0).1
    { command := "432", params := ["me", "bad!nick", "Erroneous nickname"] } rfl
  exact h

/-- C3: a PRIVMSG/NOTICE that is not CTCP, or is a CTCP action, routes
as follows: when the target parameter is the session's own identity a
private-message event is emitted and, unless the sender is the server,
the sender is registered as an open direct-message conversation and
persistence is redirected to the sender; otherwise a channel-message
event with the target set is emitted and never a private-message event;
the message is persisted exactly when the effective target is not `*`
and the message did not come from the server. -/
theorem message_routing_spec (env : Env) (s : HState) (m : irc.Message)
    (target : String)
    (hctcp : m.ctcp = none ∨ ∃ c, m.ctcp = some c ∧ c.command = "ACTION")
    (ht : m.params[0]? = some target) :
    ∃ acts, message env s m = some (s, acts) ∧
      (env.isSelf target = true →
        acts = Act.sendJSON "pm" (.message
            { id := env.newID, server := env.host, from_ := m.sender,
              content := m.lastParam })
          :: ((if !m.fromServer then [Act.addOpenDM env.host m.sender] else [])
          ++ (if m.sender ≠ "*" ∧ !m.fromServer then
                [Act.logMessage { id := env.newID, server := env.host,
                                  from_ := m.sender, to_ := m.sender,
                                  content := m.lastParam }]
              else []))) ∧
      (env.isSelf target = false →
        acts = Act.sendJSON "message" (.message
            { id := env.newID, server := env.host, from_ := m.sender,
              to_ := target, content := m.lastParam })
          :: (if target ≠ "*" ∧ !m.fromServer then
                [Act.logMessage { id := env.newID, server := env.host,
                                  from_ := m.sender, to_ := target,
                                  content := m.lastParam }]
              else [])) ∧
      (env.isSelf target = false → ∀ pl, Act.sendJSON "pm" pl ∉ acts) ∧
      ((∃ sm, Act.logMessage sm ∈ acts) ↔
        ((if env.isSelf target = true then m.sender else target) ≠ "*" ∧
          m.fromServer = false)) := by
  have hmb : message env s m = messageBody env s m := by
    rcases hctcp with hc | ⟨c, hc, hcmd⟩
    · simp [message, hc]
    · simp [message, hc, hcmd]
  by_cases hself : env.isSelf target = true
  · refine ⟨Act.sendJSON "pm" (.message
        { id := env.newID, server := env.host, from_ := m.sender,
          content := m.lastParam })
      :: ((if !m.fromServer then [Act.addOpenDM env.host m.sender] else [])
      ++ (if m.sender ≠ "*" ∧ !m.fromServer then
            [Act.logMessage { id := env.newID, server := env.host,
                              from_ := m.sender, to_ := m.sender,
                              content := m.lastParam }]
          else [])), ?_, ?_, ?_, ?_, ?_⟩
    · rw [hmb]
      simp [messageBody, ht, hself]
    · intro _; rfl
    · intro h; rw [hself] at h; exact absurd h (by decide)
    · intro h; rw [hself] at h; exact absurd h (by decide)
    · by_cases hsen : m.sender = "*" <;> cases hfs : m.fromServer <;>
        simp [hsen, hfs, hself]
  · have hself' : env.isSelf target = false := by
      cases hx : env.isSelf target
      · rfl
      · exact absurd hx hself
    refine ⟨Act.sendJSON "message" (.message
        { id := env.newID, server := env.host, from_ := m.sender,
          to_ := target, content := m.lastParam })
      :: (if target ≠ "*" ∧ !m.fromServer then
            [Act.logMessage { id := env.newID, server := env.host,
                              from_ := m.sender, to_ := target,
                              content := m.lastParam }]
          else []), ?_, ?_, ?_, ?_, ?_⟩
    · rw [hmb]
      simp [messageBody, ht, hself']
    · intro h; rw [hself'] at h; exact absurd h (by decide)
    · intro _; rfl
    · intro _ pl
      by_cases hcond : target ≠ "*" ∧ !m.fromServer <;> simp [hcond]
    · by_cases htar : target = "*"
      · subst htar
        cases hfs : m.fromServer <;> simp [hself', hfs]
      · cases hfs : m.fromServer <;> simp [htar, hfs, hself']

/-- Witness for C3 at a concrete private message from `bob` to the
session identity `alice`: the pm event, the open-conversation
registration, and persistence redirected to `bob`. -/
theorem message_routing_spec_witness :
    message env0 s0 { command := irc.PRIVMSG, params := ["alice", "hello"],
                      sender := "bob" } =
      some (s0,
        [Act.sendJSON "pm" (.message { id := "id1", server := "irc.example.net",
                                       from_ := "bob", content := "hello" }),
         Act.addOpenDM "irc.example.net" "bob",
         Act.logMessage { id := "id1", server := "irc.example.net", from_ := "bob",
                          to_ := "bob", content := "hello" }]) := by
  obtain ⟨acts, hacts, hselfEq, -, -, -⟩ := message_routing_spec env0 s0
    { command := irc.PRIVMSG, params := ["alice", "hello"], sender := "bob" }
    "alice" (Or.inl rfl) rfl
  rw [hacts, hselfEq rfl]
  rfl

/-- C9: the dispatcher and the registered handlers index fixed message
positions without bounds checks; their embeddings yield a value exactly
under the corresponding shape preconditions — a non-empty command for
dispatch, six parameters for whois-user, three for a channel-list entry
(over all session states), one for join, part, and the welcome info
reply. -/
theorem handler_bounds_spec (env : Env) (s : HState) :
    (∀ m : irc.Message, m.command = "" → dispatchMessage env s m = none) ∧
    (∀ m : irc.Message, (whoisUser s m).isSome = true ↔ 6 ≤ m.params.length) ∧
    (∀ m : irc.Message,
      (∀ st : HState, (list env st m).isSome = true) ↔ 3 ≤ m.params.length) ∧
    (∀ m : irc.Message, (join env s m).isSome = true ↔ 1 ≤ m.params.length) ∧
    (∀ m : irc.Message, (part env s m).isSome = true ↔ 1 ≤ m.params.length) ∧
    (∀ m : irc.Message, m.command = irc.RPL_WELCOME →
      ((info env s m).isSome = true ↔ 1 ≤ m.params.length)) := by
  refine ⟨?_, ?_, ?_, ?_, ?_, ?_⟩
  · intro m h
    unfold dispatchMessage
    rw [h]
    rfl
  · intro m
    constructor
    · intro hs
      unfold whoisUser at hs
      split at hs
      · rename_i n u ho r h1 h2 h3 h5
        have := getElem?_some_lt _ _ _ h5
        omega
      · simp at hs
    · intro hlen
      obtain ⟨a, h1⟩ := getElem?_some_of_lt m.params 1 (by omega)
      obtain ⟨b, h2⟩ := getElem?_some_of_lt m.params 2 (by omega)
      obtain ⟨c, h3⟩ := getElem?_some_of_lt m.params 3 (by omega)
      obtain ⟨d, h5⟩ := getElem?_some_of_lt m.params 5 (by omega)
      simp [whoisUser, h1, h2, h3, h5]
  · intro m
    constructor
    · intro hall
      have h := hall { whois := {}, motdBuffer := {}, listBuffer := some [],
                       flags := fun _ => false, channelIndexes := fun _ => none }
      simp only [list] at h
      norm_num at h
      split at h
      · rename_i a b h1 h2
        have := getElem?_some_lt _ _ _ h2
        omega
      · simp at h
    · intro hlen st
      obtain ⟨a, h1⟩ := getElem?_some_of_lt m.params 1 (by omega)
      obtain ⟨b, h2⟩ := getElem?_some_of_lt m.params 2 (by omega)
      unfold list
      by_cases hbn : st.listBuffer = none
      · by_cases hf : st.flags ("update_chanlist_" ++ env.host)
        · simp [hbn, hf, h1, h2]
        · simp [hbn, hf]
      · obtain ⟨buf, hb⟩ := Option.ne_none_iff_exists'.mp hbn
        simp [hb, h1, h2]
  · intro m
    constructor
    · intro hs
      unfold join at hs
      split at hs
      · simp at hs
      · rename_i channel h0
        have := getElem?_some_lt _ _ _ h0
        omega
    · intro hlen
      obtain ⟨c, h0⟩ := getElem?_some_of_lt m.params 0 (by omega)
      simp [join, h0]
  · intro m
    constructor
    · intro hs
      unfold part at hs
      split at hs
      · simp at hs
      · rename_i channel h0
        have := getElem?_some_lt _ _ _ h0
        omega
    · intro hlen
      obtain ⟨c, h0⟩ := getElem?_some_of_lt m.params 0 (by omega)
      simp [part, h0]
  · intro m hcmd
    constructor
    · intro hs
      unfold info at hs
      rw [if_pos hcmd] at hs
      split at hs
      · simp at hs
      · rename_i nick0 h0
        have := getElem?_some_lt _ _ _ h0
        omega
    · intro hlen
      obtain ⟨n0, h0⟩ := getElem?_some_of_lt m.params 0 (by omega)
      have hslice : sliceFrom m.params 1 = some (m.params.drop 1) := by
        unfold sliceFrom
        rw [if_pos (by omega)]
      simp [info, hcmd, h0, hslice]

/-- Witness for C9: the six-parameter whois-user message is handled, the
empty-command message is rejected by dispatch, and a join with no
parameters has no value. -/
theorem handler_bounds_spec_witness :
    dispatchMessage env0 s0 { command := "" } = none ∧
    (whoisUser s0 { command := irc.RPL_WHOISUSER,
                    params := ["me", "bob", "u", "h", "*", "Bob"] }).isSome = true ∧
    (join env0 s0 { command := irc.JOIN, params := [] }).isSome = false := by
  refine ⟨(handler_bounds_spec env0 s0).1 _ rfl, ?_, ?_⟩
  · exact ((handler_bounds_spec env0 s0).2.1 _).mpr (by decide)
  · have h := (handler_bounds_spec env0 s0).2.2.2.1
      { command := irc.JOIN, params := [] }
    cases hx : (join env0 s0 { command := irc.JOIN, params := [] }).isSome
    · rfl
    · exact absurd (h.mp hx) (by decide)

end Dispatch
